import Mathlib

/-!
Shallow embedding of the ExcelQA FastAPI service (src/main.py).

The service keeps three module-level globals: `df` (the published pandas
dataframe), `agent` (the LLM dataframe agent, rebuilt from `df`), and
`current_file_url`.  Uploaded files are written into a local `uploads/`
directory.  We model this mutable state as an explicit `ServerState` record
threaded through each handler.

Modelling conventions:
  - CSV cell values are strings (pandas dtype inference is abstracted away);
    a dataframe is a `Table` of a header plus rows.
  - `pd.read_csv` on delimited text is modelled as: split the byte string on
    newlines, skip blank lines (pandas `skip_blank_lines=True` default), take
    the first line as the default header and the rest as data rows, splitting
    each line on commas; an input with no non-blank lines raises
    (`EmptyDataError`), modelled as `.error`.
  - External effects (the network fetch in `load_from_url`, the LLM agent
    construction in `initialize_agent`, the agent invocation in
    `ask_question`) are oracles passed as explicit arguments.
  - An `HTTPException` is a status code plus its static detail prefix (the
    interpolated exception text is dropped).
  - JSON response dictionaries are association lists of string keys and
    `JVal` values, mirroring the dict literals in the source.
-/

namespace ExcelQA

/-- A dataframe: ordered column names plus rows of string cells. -/
structure Table where
  header : List String
  rows : List (List String)
deriving Repr, DecidableEq

/-- Split a character list on a separator character (structural recursion,
so that the kernel can evaluate concrete instances). -/
def splitOnChar (sep : Char) : List Char → List (List Char)
  | [] => [[]]
  | c :: cs =>
    let r := splitOnChar sep cs
    if c = sep then [] :: r
    else
      match r with
      | [] => [[c]]
      | g :: gs => (c :: g) :: gs

/-- Split a string on a separator character. -/
def split_on (sep : Char) (s : String) : List String :=
  (splitOnChar sep s.toList).map (fun cs => String.mk cs)

/-- The non-blank lines of the raw text, as pandas sees them
(`skip_blank_lines=True` is the `read_csv` default). -/
def csv_lines (contents : String) : List String :=
  (split_on (Char.ofNat 10) contents).filter (fun l => l ≠ "")

/-- Model of `pd.read_csv(io.BytesIO(contents))` on delimited text: the first
line becomes the (default) header, the remaining lines become the data rows.
No non-blank line at all raises `EmptyDataError`, modelled as `.error`. -/
def read_csv (contents : String) : Except String Table :=
  match csv_lines contents with
  | [] => Except.error "EmptyDataError"
  | l :: ls => Except.ok ⟨split_on ',' l, ls.map (fun r => split_on ',' r)⟩

/-- The header-promotion steps of `upload_csv`/`load_from_url`
(src/main.py lines 211-215 and 265-269):
`df.columns = df.iloc[0]` then `df = df.iloc[1:].reset_index(drop=True)`.
On a dataframe with zero rows, `df.iloc[0]` raises `IndexError`
("single positional indexer is out-of-bounds"), modelled as `.error`. -/
def promote_header (t : Table) : Except String Table :=
  match t.rows with
  | [] => Except.error "IndexError"
  | r :: rest => Except.ok ⟨r, rest⟩

/-- The full decode pipeline both ingestion paths run on raw bytes:
parse with the first line as default header, then promote the first data
row to be the real header and drop it from the data. -/
def decode (contents : String) : Except String Table :=
  match read_csv contents with
  | Except.error e => Except.error e
  | Except.ok t0 => promote_header t0

/-- The mutable module-level state of src/main.py: the globals `df`, `agent`
and `current_file_url`, plus the contents of the local `uploads/` directory.
The agent is represented by the table it was built over (the dataframe
captured at `create_pandas_dataframe_agent` time); `none` means the global
is `None` / the directory entry is absent. -/
structure ServerState where
  df : Option Table
  agent : Option Table
  current_file_url : Option String
  uploads : List (String × String)
deriving Repr, DecidableEq

/-- An `HTTPException`: its status code and the static prefix of its
`detail` string. -/
structure HttpError where
  status : Nat
  detail : String
deriving Repr, DecidableEq

/-- A JSON value appearing in the handlers' response dictionaries. -/
inductive JVal where
  | b (x : Bool)
  | s (x : String)
  | n (x : Nat)
deriving Repr, DecidableEq

/-- A JSON response object, mirroring the dict literals in the source. -/
abbrev JObj := List (String × JVal)

/-- Writing `contents` under `name` in the uploads directory: the single
slot for that filename is overwritten, other files are untouched
(src/main.py lines 189-191). -/
def store_file : List (String × String) → String → String → List (String × String)
  | [], name, contents => [(name, contents)]
  | (n, c) :: rest, name, contents =>
    if n = name then (n, contents) :: rest
    else (n, c) :: store_file rest name contents

/-- Whether the uploaded filename passes the format guard
`file.filename.endswith('.csv')` (src/main.py line 181). -/
def ends_with_csv (name : String) : Bool :=
  List.isSuffixOf ".csv".toList name.toList

/-- Default `SERVER_URL` (src/main.py line 195, with the environment
variable unset). -/
def SERVER_URL : String := "http://localhost:8000"

/-- Model of `initialize_agent` (src/main.py lines 112-134): reads the
global `df`; raises if it is `None`; otherwise builds the LLM and the pandas
dataframe agent over the current `df` and installs it in the global `agent`.
Construction of the external LLM/agent can fail (misconfiguration, auth);
that outcome is the oracle `llm_ok`.  On any failure the `agent` global is
left untouched (the assignment at line 127 is never reached).  Returns the
updated state and whether the call completed without raising. -/
def initialize_agent (llm_ok : Bool) (s : ServerState) : ServerState × Bool :=
  match s.df with
  | none => (s, false)
  | some t => if llm_ok then ({ s with agent := some t }, true) else (s, false)

/-- Model of the `upload_csv` handler (src/main.py lines 173-234).
`filename`/`contents` are the uploaded file; `llm_ok` is the
`initialize_agent` oracle.  Steps, in source order: format guard (400
outside the try block); write the file into `uploads/`; set
`current_file_url`; `pd.read_csv` (reassigning the global `df`); header
promotion (`df.iloc[0]` raising `IndexError` on a 0-row frame);
`initialize_agent`; success dict.  Any exception inside the try block is
caught at line 233 and turned into a 500 with detail prefix
"Error uploading file". -/
def upload_csv (s : ServerState) (filename contents : String) (llm_ok : Bool) :
    ServerState × Except HttpError JObj :=
  if ends_with_csv filename then
    let s1 : ServerState :=
      { s with
        uploads := store_file s.uploads filename contents,
        current_file_url := some (SERVER_URL ++ "/uploads/" ++ filename) }
    match read_csv contents with
    | Except.error _ => (s1, Except.error ⟨500, "Error uploading file"⟩)
    | Except.ok t0 =>
      let s2 : ServerState := { s1 with df := some t0 }
      match t0.rows with
      | [] => (s2, Except.error ⟨500, "Error uploading file"⟩)
      | r :: rest =>
        let t : Table := ⟨r, rest⟩
        let s3 : ServerState := { s2 with df := some t }
        match initialize_agent llm_ok s3 with
        | (s4, true) =>
          (s4, Except.ok
            [("success", JVal.b true),
             ("message", JVal.s "CSV uploaded successfully"),
             ("file_url", JVal.s (SERVER_URL ++ "/uploads/" ++ filename)),
             ("local_path", JVal.s ("uploads/" ++ filename)),
             ("rows", JVal.n t.rows.length),
             ("columns", JVal.n t.header.length)])
        | (s4, false) => (s4, Except.error ⟨500, "Error uploading file"⟩)
  else
    (s, Except.error ⟨400, "Only CSV files are allowed"⟩)

/-- Outcome of `requests.get(file_url, timeout=30)` followed by
`raise_for_status()`: either the response body, or a
`requests.RequestException` (connection error, HTTP error status, or
timeout). -/
inductive FetchResult where
  | ok (contents : String)
  | err
deriving Repr, DecidableEq

/-- The bounded timeout passed to `requests.get` (src/main.py line 248). -/
def FETCH_TIMEOUT_SECONDS : Nat := 30

/-- Model of the `load_from_url` handler (src/main.py lines 236-289).
`fetched` is the network oracle.  A `requests.RequestException` is caught at
line 286 ("Error downloading file", 500) before any state is touched.  On a
successful fetch the pipeline is: `pd.read_csv` (reassigning the global
`df`); header promotion; set `current_file_url`; `initialize_agent`; success
dict.  Note the fetched bytes are never written to the uploads directory.
Any non-request exception is caught at line 288 ("Error loading data",
500). -/
def load_from_url (s : ServerState) (file_url : String) (fetched : FetchResult)
    (llm_ok : Bool) : ServerState × Except HttpError JObj :=
  match fetched with
  | FetchResult.err => (s, Except.error ⟨500, "Error downloading file"⟩)
  | FetchResult.ok contents =>
    match read_csv contents with
    | Except.error _ => (s, Except.error ⟨500, "Error loading data"⟩)
    | Except.ok t0 =>
      let s1 : ServerState := { s with df := some t0 }
      match t0.rows with
      | [] => (s1, Except.error ⟨500, "Error loading data"⟩)
      | r :: rest =>
        let t : Table := ⟨r, rest⟩
        let s2 : ServerState :=
          { s1 with df := some t, current_file_url := some file_url }
        match initialize_agent llm_ok s2 with
        | (s3, true) =>
          (s3, Except.ok
            [("success", JVal.b true),
             ("message", JVal.s "Data loaded from URL successfully"),
             ("rows", JVal.n t.rows.length),
             ("columns", JVal.n t.header.length)])
        | (s3, false) => (s3, Except.error ⟨500, "Error loading data"⟩)

/-- Outcome of `agent.invoke(question)`: an answer string (the `output`
field, with the source's default "No answer generated" already applied), or
an exception from the agent/LLM. -/
inductive EngineResult where
  | answer (a : String)
  | failure
deriving Repr, DecidableEq

/-- The response model `Answer` (src/main.py lines 51-53). -/
structure Answer where
  question : String
  answer : String
deriving Repr, DecidableEq

/-- Python's `not question.strip()`: true iff every character of the
question is whitespace (in particular for the empty string). -/
def strip_empty (q : String) : Bool :=
  q.toList.all (fun c => c.isWhitespace)

/-- Model of the `ask_question` handler (src/main.py lines 291-318).
Checks, in source order: `agent is None` (503, "Agent not initialized");
empty/whitespace-only question (400, "Question cannot be empty"); then the
agent is invoked (`engine` oracle), an exception becoming a 500
("Error processing question").  No global is assigned anywhere in the
handler, so the state is returned unchanged on every path. -/
def ask_question (s : ServerState) (q : String) (engine : EngineResult) :
    ServerState × Except HttpError Answer :=
  if s.agent = none then
    (s, Except.error ⟨503, "Agent not initialized"⟩)
  else if strip_empty q then
    (s, Except.error ⟨400, "Question cannot be empty"⟩)
  else
    match engine with
    | EngineResult.failure => (s, Except.error ⟨500, "Error processing question"⟩)
    | EngineResult.answer a => (s, Except.ok ⟨q, a⟩)

/-- One entry of the in-memory `USERS` table (src/main.py lines 61-64). -/
structure UserRec where
  password : String
  role : String
deriving Repr, DecidableEq

/-- The hardcoded user store `USERS` as a lookup function
(`USERS.get(username)`). -/
def USERS (username : String) : Option UserRec :=
  if username = "admin" then some ⟨"admin123", "admin"⟩
  else if username = "user" then some ⟨"user123", "user"⟩
  else none

/-- The response model `LoginResponse` (src/main.py lines 55-58). -/
structure LoginResponse where
  success : Bool
  role : Option String
  message : String
deriving Repr, DecidableEq

/-- Model of the `login` handler (src/main.py lines 156-171): look the
username up in `USERS`; unknown user gives "User not found"; a password
mismatch gives "Invalid password"; otherwise success with the stored
role. -/
def login (username password : String) : LoginResponse :=
  match USERS username with
  | none => ⟨false, none, "User not found"⟩
  | some user =>
    if user.password ≠ password then ⟨false, none, "Invalid password"⟩
    else ⟨true, some user.role, "Login successful"⟩

/-- A state with a published table, a bound agent and a recorded file URL,
used to exercise an ingestion attempt that arrives after an earlier
successful one. -/
def pre_upload_state : ServerState :=
  ⟨some ⟨["x"], [["1"]]⟩, some ⟨["x"], [["1"]]⟩, some "http://old/prev.csv", []⟩

end ExcelQA

namespace ExcelQA

/-- Helper: `initialize_agent` never touches the uploads directory. -/
theorem initialize_agent_uploads (b : Bool) (s : ServerState) :
    (initialize_agent b s).1.uploads = s.uploads := by
  rcases s with ⟨df, ag, url, up⟩
  cases df <;> cases b <;> rfl

/-- C1: a decode failure during ingestion is claimed to leave the published
table, the agent binding and the current file URL exactly as before.  The
code violates this: uploading the single-line file "a,b\n" over a previously
published state fails the decode at the header-promotion step, yet afterwards
the global `df` has been replaced by the intermediate default-parsed table
and `current_file_url` points at the new upload; only the agent binding (and
hence the previously published data, as served by the agent) survives. -/
theorem C1_decode_failure_mutates_state :
    (upload_csv pre_upload_state "new.csv" "a,b\n" true).2 =
      Except.error ⟨500, "Error uploading file"⟩ ∧
    (upload_csv pre_upload_state "new.csv" "a,b\n" true).1.df =
      some ⟨["a", "b"], []⟩ ∧
    (upload_csv pre_upload_state "new.csv" "a,b\n" true).1.df ≠
      pre_upload_state.df ∧
    (upload_csv pre_upload_state "new.csv" "a,b\n" true).1.current_file_url =
      some "http://localhost:8000/uploads/new.csv" ∧
    (upload_csv pre_upload_state "new.csv" "a,b\n" true).1.current_file_url ≠
      pre_upload_state.current_file_url ∧
    (upload_csv pre_upload_state "new.csv" "a,b\n" true).1.agent =
      pre_upload_state.agent :=
  ⟨rfl, rfl, by decide, rfl, by decide, rfl⟩

/-- C2: decoding parses with the first line as a default header, then
promotes the first data row to be the real column names and drops it from
the data: whenever the input has at least two non-blank lines, the decoded
table's header is the second line's cells and its rows are the remaining
lines' cells; the published `df` of a fresh upload is exactly that table. -/
theorem C2_header_promotion (c l1 l2 : String) (rest : List String)
    (h : csv_lines c = l1 :: l2 :: rest) :
    decode c =
      Except.ok ⟨split_on ',' l2, rest.map (fun r => split_on ',' r)⟩ ∧
    (upload_csv ⟨none, none, none, []⟩ "data.csv" c true).1.df =
      some ⟨split_on ',' l2, rest.map (fun r => split_on ',' r)⟩ := by
  constructor
  · simp [decode, read_csv, h, promote_header]
  · have hcsv : ends_with_csv "data.csv" = true := rfl
    simp [upload_csv, read_csv, h, promote_header, initialize_agent, hcsv]

/-- C2 witness: the spec's concrete scenario.  Uploading "a,b\n1,2\n3,4\n"
promotes "1,2" to the header ["1","2"], the remaining row is ["3","4"], and
the published table has 1 row and 2 columns. -/
theorem C2_header_promotion_witness :
    decode "a,b\n1,2\n3,4\n" = Except.ok ⟨["1", "2"], [["3", "4"]]⟩ ∧
    (upload_csv ⟨none, none, none, []⟩ "data.csv" "a,b\n1,2\n3,4\n" true).1.df =
      some ⟨["1", "2"], [["3", "4"]]⟩ ∧
    ([["3", "4"]] : List (List String)).length = 1 ∧
    (["1", "2"] : List String).length = 2 :=
  ⟨(C2_header_promotion "a,b\n1,2\n3,4\n" "a,b" "1,2" ["3,4"] rfl).1,
   (C2_header_promotion "a,b\n1,2\n3,4\n" "a,b" "1,2" ["3,4"] rfl).2,
   rfl, rfl⟩

/-- C4 counterexample: the claim says a successful ingestion returns the new
version of a store version counter together with the row and column counts.
The code keeps no version counter: the success response of a first upload
carries exactly the keys success, message, file_url, local_path, rows and
columns — no version field of any kind. -/
theorem C4_no_version_in_response :
    (upload_csv ⟨none, none, none, []⟩ "data.csv" "a,b\n1,2\n3,4\n" true).2 =
      Except.ok
        [("success", JVal.b true),
         ("message", JVal.s "CSV uploaded successfully"),
         ("file_url", JVal.s "http://localhost:8000/uploads/data.csv"),
         ("local_path", JVal.s "uploads/data.csv"),
         ("rows", JVal.n 1),
         ("columns", JVal.n 2)] ∧
    "version" ∉
      (["success", "message", "file_url", "local_path", "rows", "columns"] :
        List String) :=
  ⟨rfl, by decide⟩

/-- C4 amended: every successful ingestion — by upload or by URL — returns
the row count and the column count of the newly published (promoted) table;
neither success response carries a version field, and the server state has
no version counter to advance. -/
theorem C4_success_reports_counts (s s' : ServerState)
    (filename contents url : String)
    (t0 : Table) (r : List String) (rest : List (List String))
    (hf : ends_with_csv filename = true)
    (hp : read_csv contents = Except.ok t0)
    (hr : t0.rows = r :: rest) :
    (upload_csv s filename contents true).2 =
      Except.ok
        [("success", JVal.b true),
         ("message", JVal.s "CSV uploaded successfully"),
         ("file_url", JVal.s (SERVER_URL ++ "/uploads/" ++ filename)),
         ("local_path", JVal.s ("uploads/" ++ filename)),
         ("rows", JVal.n rest.length),
         ("columns", JVal.n r.length)] ∧
    (load_from_url s' url (FetchResult.ok contents) true).2 =
      Except.ok
        [("success", JVal.b true),
         ("message", JVal.s "Data loaded from URL successfully"),
         ("rows", JVal.n rest.length),
         ("columns", JVal.n r.length)] ∧
    "version" ∉
      (["success", "message", "file_url", "local_path", "rows", "columns"] :
        List String) ∧
    "version" ∉
      (["success", "message", "rows", "columns"] : List String) := by
  refine ⟨?_, ?_, by decide, by decide⟩
  · simp [upload_csv, hf, hp, hr, initialize_agent]
  · simp [load_from_url, hp, hr, initialize_agent]

/-- C4 witness: a concrete two-data-row file, ingested by upload and by URL,
reports 1 row and 2 columns on both paths, and no version. -/
theorem C4_success_reports_counts_witness :
    (upload_csv ⟨none, none, none, []⟩ "w.csv" "h1,h2\na,b\nc,d\n" true).2 =
      Except.ok
        [("success", JVal.b true),
         ("message", JVal.s "CSV uploaded successfully"),
         ("file_url", JVal.s (SERVER_URL ++ "/uploads/" ++ "w.csv")),
         ("local_path", JVal.s ("uploads/" ++ "w.csv")),
         ("rows", JVal.n ([["c", "d"]] : List (List String)).length),
         ("columns", JVal.n (["a", "b"] : List String).length)] ∧
    (load_from_url ⟨none, none, none, []⟩ "http://h/w.csv"
        (FetchResult.ok "h1,h2\na,b\nc,d\n") true).2 =
      Except.ok
        [("success", JVal.b true),
         ("message", JVal.s "Data loaded from URL successfully"),
         ("rows", JVal.n ([["c", "d"]] : List (List String)).length),
         ("columns", JVal.n (["a", "b"] : List String).length)] ∧
    "version" ∉
      (["success", "message", "file_url", "local_path", "rows", "columns"] :
        List String) ∧
    "version" ∉
      (["success", "message", "rows", "columns"] : List String) :=
  C4_success_reports_counts ⟨none, none, none, []⟩ ⟨none, none, none, []⟩
    "w.csv" "h1,h2\na,b\nc,d\n" "http://h/w.csv"
    ⟨["h1", "h2"], [["a", "b"], ["c", "d"]]⟩ ["a", "b"] [["c", "d"]]
    rfl rfl rfl

/-- C5 counterexample: the claim says the emptiness check comes first, so an
empty question fails with EmptyQuestion in every store state.  In the state
with no agent bound, asking "" yields 503 "Agent not initialized"
(AgentUnavailable), not 400 "Question cannot be empty" (EmptyQuestion), even
though the question is empty. -/
theorem C5_agent_checked_before_emptiness :
    (ask_question ⟨none, none, none, []⟩ "" EngineResult.failure).2 =
      Except.error ⟨503, "Agent not initialized"⟩ ∧
    strip_empty "" = true ∧
    (⟨503, "Agent not initialized"⟩ : HttpError) ≠
      ⟨400, "Question cannot be empty"⟩ :=
  ⟨rfl, rfl, by decide⟩

/-- C5 amended: the agent-availability check is performed first; an empty or
whitespace-only question fails with EmptyQuestion exactly in the states
where an agent is bound, and with AgentUnavailable otherwise (there is no
separate no-data check: `df` is never consulted by `ask_question`). -/
theorem C5_empty_question (s : ServerState) (q : String) (e : EngineResult) :
    (s.agent = none →
      (ask_question s q e).2 = Except.error ⟨503, "Agent not initialized"⟩) ∧
    (s.agent ≠ none → strip_empty q = true →
      (ask_question s q e).2 = Except.error ⟨400, "Question cannot be empty"⟩) := by
  constructor
  · intro h
    unfold ask_question
    rw [if_pos h]
  · intro h hq
    unfold ask_question
    rw [if_neg h, if_pos hq]

/-- C5 amended witness: with an agent bound, asking the whitespace-only
question "   " fails with 400 "Question cannot be empty". -/
theorem C5_empty_question_witness :
    (ask_question ⟨some ⟨["c"], []⟩, some ⟨["c"], []⟩, none, []⟩ "   "
        EngineResult.failure).2 =
      Except.error ⟨400, "Question cannot be empty"⟩ :=
  (C5_empty_question ⟨some ⟨["c"], []⟩, some ⟨["c"], []⟩, none, []⟩ "   "
      EngineResult.failure).2 (by decide) (by decide)

/-- C6: the code crashes on a single-line input.  `pd.read_csv` on "a,b\n"
yields the 0-row default-parsed table with header ["a","b"]; the promotion
step `df.iloc[0]` then raises IndexError instead of producing a 0-row table
with the promoted header, so the decode pipeline ends in an error. -/
theorem C6_single_line_input_raises :
    read_csv "a,b\n" = Except.ok ⟨["a", "b"], []⟩ ∧
    promote_header ⟨["a", "b"], []⟩ = Except.error "IndexError" ∧
    decode "a,b\n" = Except.error "IndexError" :=
  ⟨rfl, rfl, rfl⟩

/-- C7 counterexample: the claim says a successful URL fetch persists the
fetched bytes to the backing store slot before decoding.  A fully successful
`load_from_url` call (fetch, decode and publish all succeed) leaves the
uploads directory empty: the fetched bytes are never written anywhere. -/
theorem C7_url_fetch_not_persisted :
    (load_from_url ⟨none, none, none, []⟩ "http://h/f.csv"
        (FetchResult.ok "a,b\n1,2\n3,4\n") true).1.uploads = ([] : List (String × String)) ∧
    (load_from_url ⟨none, none, none, []⟩ "http://h/f.csv"
        (FetchResult.ok "a,b\n1,2\n3,4\n") true).2 =
      Except.ok
        [("success", JVal.b true),
         ("message", JVal.s "Data loaded from URL successfully"),
         ("rows", JVal.n 1),
         ("columns", JVal.n 2)] :=
  ⟨rfl, rfl⟩

/-- C7 amended: ingestion by URL runs the same decode-promote-publish-rebind
pipeline as upload ingestion but skips the persist step entirely: no
`load_from_url` call ever changes the uploads directory, while the upload
path always writes the raw bytes under the uploaded filename (before
decoding, so the write happens even when the decode then fails). -/
theorem C7_only_upload_persists :
    (∀ (s : ServerState) (u : String) (f : FetchResult) (b : Bool),
        (load_from_url s u f b).1.uploads = s.uploads) ∧
    (∀ (s : ServerState) (name contents : String) (b : Bool),
        ends_with_csv name = true →
        (upload_csv s name contents b).1.uploads =
          store_file s.uploads name contents) := by
  constructor
  · intro s u f b
    cases f with
    | err => rfl
    | ok contents =>
      simp only [load_from_url]
      cases hp : read_csv contents with
      | error e => rfl
      | ok t0 =>
        rcases t0 with ⟨hd, rows⟩
        cases rows with
        | nil => rfl
        | cons r rest =>
          dsimp only
          split <;> rename_i s4 heq <;>
            exact (congrArg (fun q => q.1.uploads) heq).symm.trans
              (initialize_agent_uploads b _)
  · intro s name contents b hf
    unfold upload_csv
    rw [if_pos hf]
    dsimp only
    cases hp : read_csv contents with
    | error e => rfl
    | ok t0 =>
      rcases t0 with ⟨hd, rows⟩
      cases rows with
      | nil => rfl
      | cons r rest =>
        dsimp only
        split <;> rename_i s4 heq <;>
          exact (congrArg (fun q => q.1.uploads) heq).symm.trans
            (initialize_agent_uploads b _)

/-- C7 amended witness: a concrete upload whose decode fails (single-line
file) still writes the bytes into the uploads slot for that filename. -/
theorem C7_only_upload_persists_witness :
    (upload_csv ⟨none, none, none, []⟩ "n.csv" "a,b\n" true).1.uploads =
      store_file ([] : List (String × String)) "n.csv" "a,b\n" :=
  C7_only_upload_persists.2 ⟨none, none, none, []⟩ "n.csv" "a,b\n" true rfl

/-- C8: a failed URL fetch (connection error, HTTP error status from
`raise_for_status`, or the bounded 30-second timeout) is caught as a
`requests.RequestException` before anything is assigned: the call returns
500 "Error downloading file" and the state — published table, agent binding,
current file URL, uploads — is exactly the input state. -/
theorem C8_fetch_failure_state_untouched (s : ServerState) (url : String)
    (llm_ok : Bool) :
    load_from_url s url FetchResult.err llm_ok =
      (s, Except.error ⟨500, "Error downloading file"⟩) ∧
    FETCH_TIMEOUT_SECONDS = 30 :=
  ⟨rfl, rfl⟩

/-- C9: `ask_question` assigns no global on any path — agent missing, empty
question, engine failure or success — so for every question, engine outcome
and store state the state after the call equals the state before it. -/
theorem C9_ask_preserves_state (s : ServerState) (q : String) (e : EngineResult) :
    (ask_question s q e).1 = s := by
  unfold ask_question
  split
  · rfl
  · split
    · rfl
    · cases e <;> rfl

/-- C10: the credential check succeeds exactly for the two hardcoded
username/password pairs, returning the stored role; an unknown username
yields the user-not-found response, a known username with a non-matching
password yields the wrong-password response.  (`login` is a pure function of
its arguments: it reads only the fixed `USERS` table and touches no server
state.) -/
theorem C10_login_table (u p : String) :
    ((login u p).success = true ↔
      ((u = "admin" ∧ p = "admin123") ∨ (u = "user" ∧ p = "user123"))) ∧
    (USERS u = none → login u p = ⟨false, none, "User not found"⟩) ∧
    (∀ rec : UserRec, USERS u = some rec → p ≠ rec.password →
      login u p = ⟨false, none, "Invalid password"⟩) ∧
    (∀ rec : UserRec, USERS u = some rec → p = rec.password →
      login u p = ⟨true, some rec.role, "Login successful"⟩) := by
  unfold login USERS
  by_cases h1 : u = "admin"
  · subst h1
    by_cases h2 : p = "admin123"
    · subst h2; simp
    · have h2' : ¬ ("admin123" = p) := fun h => h2 h.symm
      simp [h2, h2']
  · by_cases h2 : u = "user"
    · subst h2
      by_cases h3 : p = "user123"
      · subst h3; simp [h1]
      · have h3' : ¬ ("user123" = p) := fun h => h3 h.symm
        simp [h1, h3, h3']
    · simp [h1, h2]

/-- C10 witness: the admin credentials log in with the stored admin role. -/
theorem C10_login_table_witness :
    login "admin" "admin123" = ⟨true, some "admin", "Login successful"⟩ :=
  (C10_login_table "admin" "admin123").2.2.2 ⟨"admin123", "admin"⟩ rfl rfl

end ExcelQA
